import Mathlib

/-!
Shallow embedding of the report-build pipeline of `main.py`
(automated_email_report_sender): data loading, chart rendering, metrics,
HTML rendering, PDF export and attachment assembly, together with proofs
of the spec's testable properties.

Numeric values are embedded exactly: `orders` as `ℤ` (pandas int64 column,
cast with `int(...)`), `revenue` as `ℚ` (the decimal amounts of the CSV;
Python holds them as floats, modelled here by exact rationals).
-/

namespace EmailReport

/-- Calendar date, as parsed by `pd.read_csv(..., parse_dates=["date"])`. -/
structure Date where
  year : Nat
  month : Nat
  day : Nat
deriving DecidableEq, Repr

/-- One row of the sales dataset: `date`, `orders`, `revenue`. -/
structure Record where
  date : Date
  orders : ℤ
  revenue : ℚ
deriving DecidableEq, Repr

/-- Aggregates computed by `render_html` lines 50-52 of `main.py`. -/
structure Metrics where
  total_orders : ℤ
  total_revenue : ℚ
  best : Record
deriving DecidableEq, Repr

/-- Error kinds of the pipeline, following the spec's taxonomy. `keyError`
is a missing-column access (Python `KeyError` on `df[col]`); `emptyDataset`
is the `IndexError` that `.iloc[0]` raises on an empty frame, i.e. the
spec's `EmptyDatasetError`; `dataLoad` is a `pd.read_csv` failure. -/
inductive PipelineError where
  | dataLoad
  | keyError (column : String)
  | emptyDataset
  | renderError
  | templateError
  | exportError
deriving DecidableEq, Repr

/-- Ascending comparison on the `revenue` column, the key of
`df.sort_values("revenue", ...)` in `render_html` line 52. -/
def revenueLE (a b : Record) : Prop := a.revenue ≤ b.revenue

instance : DecidableRel revenueLE := fun a b =>
  inferInstanceAs (Decidable (a.revenue ≤ b.revenue))

/-- Embedding of `df.sort_values("revenue", ascending=False)` (line 52).
pandas (`nargsort`) handles `ascending=False` by reversing the column and
the index array BEFORE the ascending argsort and reversing the resulting
indexer again AFTER it; the double reversal makes the descending sort
stable, keeping tied values in their original order. Modelled as
reverse-sort-reverse with a stable ascending sort (exact for
`kind="mergesort"/"stable"` and for numpy's default sort on small arrays,
which falls back to insertion sort). -/
def sortValuesRevenueDesc (t : List Record) : List Record :=
  (List.insertionSort revenueLE t.reverse).reverse

/-- Embedding of `....iloc[0]` applied to the descending-sorted frame
(line 52): the first row, or the empty-frame failure. -/
def bestRow (t : List Record) : Option Record :=
  (sortValuesRevenueDesc t).head?

/-- The metrics step of `render_html` (lines 50-52):
`total_orders = int(df["orders"].sum())`,
`total_revenue = float(df["revenue"].sum())`,
`best_row = df.sort_values("revenue", ascending=False).iloc[0]`.
On a zero-record table `.iloc[0]` fails (the spec's `EmptyDatasetError`). -/
def computeMetrics (t : List Record) : Except PipelineError Metrics :=
  match bestRow t with
  | none => .error .emptyDataset
  | some b => .ok ⟨(t.map Record.orders).sum, (t.map Record.revenue).sum, b⟩

/-- Round a rational to the nearest integer, ties to even: the rounding of
Python's fixed-point float formatting (`format(v, ",.2f")`), applied here
to the exact value. -/
def roundHalfEven (q : ℚ) : ℤ :=
  let f := q.floor
  let r := q - (f : ℚ)
  if r < 1/2 then f
  else if 1/2 < r then f + 1
  else if f % 2 = 0 then f else f + 1

/-- Two-digit zero-padded decimal (for the cents and for `%m`/`%d` of
`strftime`). -/
def pad2 (n : Nat) : String :=
  if n < 10 then "0" ++ toString n else toString n

/-- Four-digit zero-padded decimal (for `%Y` of `strftime`). -/
def pad4 (n : Nat) : String :=
  if n < 10 then "000" ++ toString n
  else if n < 100 then "00" ++ toString n
  else if n < 1000 then "0" ++ toString n
  else toString n

/-- Embedding of `strftime("%Y-%m-%d")` (lines 59-60). -/
def formatDate (d : Date) : String :=
  pad4 d.year ++ "-" ++ pad2 d.month ++ "-" ++ pad2 d.day

/-- Insert a comma before every third digit, counting from the right; the
input list is the digit string reversed, `n` counts digits already
emitted. -/
def commaGroupAux : Nat → List Char → List Char
  | _, [] => []
  | n, c :: cs =>
    if n ≠ 0 ∧ n % 3 = 0 then ',' :: c :: commaGroupAux (n + 1) cs
    else c :: commaGroupAux (n + 1) cs

/-- Comma thousands grouping of a digit string, as Python's `","` format
flag produces. -/
def commaGroup (s : String) : String :=
  String.mk (commaGroupAux 0 s.data.reverse).reverse

/-- Embedding of the Python format `f"{v:,.2f}"`: value rounded to cents
(half to even), sign, comma-grouped integer part, point, two-digit
fraction. -/
def formatFixed2 (v : ℚ) : String :=
  let cents := roundHalfEven (v * 100)
  let sign : String := if cents < 0 then "-" else ""
  (sign ++ commaGroup (toString (cents.natAbs / 100))) ++ "." ++ pad2 (cents.natAbs % 100)

/-- Embedding of `f"${v:,.2f}"`, the currency format of `render_html`
lines 58-60. -/
def formatCurrency (v : ℚ) : String := "$" ++ formatFixed2 v

/-- Suffix test on strings (Python `str.endswith`), computed on the
character lists. -/
def strEndsWith (s suffix : String) : Bool :=
  suffix.data.isSuffixOf s.data

/-- The name passed to `env.get_template` in `render_html` line 48. -/
def templateName : String := "report.html.j2"

/-- Embedding of jinja2's `select_autoescape()` with its default arguments,
as installed by the `Environment(..., autoescape=select_autoescape())` call
in `render_html` lines 44-47: escaping is enabled only for template names
ending (case-insensitively) in `.html`, `.htm` or `.xml`; every other
named template gets the default `False`. -/
def selectAutoescapeDefault (name : String) : Bool :=
  let n := name.toLower
  strEndsWith n ".html" || strEndsWith n ".htm" || strEndsWith n ".xml"

/-- Markup escaping of a single character, as jinja2/markupsafe `escape`
performs it (39 and 34 are the apostrophe and the double quote). -/
def escapeChar (c : Char) : String :=
  if c = '&' then "&amp;"
  else if c = '<' then "&lt;"
  else if c = '>' then "&gt;"
  else if c.toNat = 39 then "&#39;"
  else if c.toNat = 34 then "&#34;"
  else String.singleton c

/-- Markup escaping of a string (jinja2/markupsafe `escape`). -/
def htmlEscape (s : String) : String :=
  String.join (s.data.map escapeChar)

/-- Modelled from the spec: the template `report.html.j2` (the repo's
`templates/` directory is not under `src/`) exposes plain named
placeholders (`title`, `generated_at`, ...), so each interpolated value is
escaped exactly when the environment's autoescape function enables it for
the template's name. -/
def renderField (autoescape : Bool) (v : String) : String :=
  if autoescape then htmlEscape v else v

/-- The in-memory frame produced by `pd.read_csv`: the column names of the
file together with the typed rows. Column-presence checks of the pipeline
consult `columns`; the typed values of the three known columns live in
`records`. -/
structure Frame where
  columns : List String
  records : List Record
deriving DecidableEq, Repr

/-- Embedding of `read_data` (lines 27-30):
`pd.read_csv(data_path, parse_dates=["date"])` fails iff the `date`
column named in `parse_dates` is missing (a `DataLoadError`); it performs
no validation of any other column. -/
def read_data (f : Frame) : Except PipelineError Frame :=
  if "date" ∈ f.columns then .ok f else .error .dataLoad

/-- The chart artifact: the plotted `(date, revenue)` point series of
`plt.plot(df["date"], df["revenue"])`. -/
structure ChartArtifact where
  points : List (Date × ℚ)
deriving DecidableEq, Repr

/-- Embedding of `make_chart` (lines 32-41): accesses `df["date"]` and
`df["revenue"]` (a missing column raises `KeyError`), then plots and saves
the figure; matplotlib performs no emptiness or finiteness validation, so
any frame with both columns yields a chart artifact. -/
def make_chart (f : Frame) : Except PipelineError ChartArtifact :=
  if "date" ∉ f.columns then .error (.keyError "date")
  else if "revenue" ∉ f.columns then .error (.keyError "revenue")
  else .ok ⟨f.records.map fun r => (r.date, r.revenue)⟩

/-- The rendered report context handed to the template by
`template.render` (lines 53-61), with the title interpolated under the
environment's autoescape setting. -/
structure ReportDocument where
  title : String
  total_orders : ℤ
  total_revenue : String
  best_day_date : String
  best_day_revenue : String
  rows : List (String × ℤ × String)
deriving DecidableEq, Repr

/-- Embedding of the `rows=[...]` comprehension of `render_html` line 60:
one entry per record, in `zip` (i.e. frame) order, with formatted date,
integer orders and currency-formatted revenue. -/
def renderRows (t : List Record) : List (String × ℤ × String) :=
  t.map fun r => (formatDate r.date, r.orders, formatCurrency r.revenue)

/-- Embedding of `render_html` (lines 43-62): accesses `df["orders"]` then
`df["revenue"]` (lines 50-51, `KeyError` when missing), computes the
metrics (failing on an empty frame), and renders the template context.
The `title` is `os.getenv("REPORT_TITLE", "Sales Report")` interpolated
under `select_autoescape()`'s decision for `report.html.j2`. -/
def render_html (f : Frame) (titleEnv : Option String) :
    Except PipelineError ReportDocument :=
  if "orders" ∉ f.columns then .error (.keyError "orders")
  else if "revenue" ∉ f.columns then .error (.keyError "revenue")
  else
    match computeMetrics f.records with
    | .error e => .error e
    | .ok m =>
      .ok { title := renderField (selectAutoescapeDefault templateName)
                        (titleEnv.getD "Sales Report")
            total_orders := m.total_orders
            total_revenue := formatCurrency m.total_revenue
            best_day_date := formatDate m.best.date
            best_day_revenue := formatCurrency m.best.revenue
            rows := renderRows f.records }

/-- The PDF artifact of `export_pdf` (lines 64-79): a single page holding
the title and the chart image. -/
structure PdfDocument where
  title : String
  chart : ChartArtifact
deriving DecidableEq, Repr

/-- Embedding of `export_pdf` (lines 64-79): draws the title, the
timestamp and the chart onto one letter-sized page. -/
def export_pdf (chart : ChartArtifact) (title : String) : PdfDocument :=
  ⟨title, chart⟩

/-- Attachment payloads: the chart PNG bytes or the exported PDF bytes. -/
inductive Payload where
  | png (chart : ChartArtifact)
  | pdfDoc (doc : PdfDocument)
deriving DecidableEq, Repr

/-- The terminal value of one pipeline run: subject, HTML body and the
ordered attachment list handed to `send_email`. -/
structure ArtifactBundle where
  subject : String
  html : ReportDocument
  attachments : List (String × Payload × String)
deriving DecidableEq, Repr

/-- Embedding of line 125:
`enable_pdf = os.getenv("ENABLE_PDF", "true").lower() == "true"`. -/
def enable_pdf (env : Option String) : Bool :=
  (env.getD "true").toLower == "true"

/-- Embedding of the attachment assembly of `build_and_send`
(lines 121-130): the chart attachment always, the PDF attachment appended
only when `enable_pdf` holds. -/
def attachmentsList {β : Type} (enablePdf : Bool) (chart pdf : β) :
    List (String × β × String) :=
  let a := [("revenue_chart.png", chart, "image/png")]
  if enablePdf then a ++ [("report.pdf", pdf, "application/pdf")] else a

/-- Embedding of `build_and_send` (lines 108-133): load the data, render
the chart, render the HTML, then assemble subject, body and attachments;
each stage's failure aborts the run before the next stage. -/
def build_and_send (f : Frame) (titleEnv pdfEnv : Option String) :
    Except PipelineError ArtifactBundle :=
  match read_data f with
  | .error e => .error e
  | .ok df =>
    match make_chart df with
    | .error e => .error e
    | .ok chart =>
      match render_html df titleEnv with
      | .error e => .error e
      | .ok doc =>
        let title := titleEnv.getD "Sales Report"
        .ok ⟨title, doc,
          attachmentsList (enable_pdf pdfEnv) (Payload.png chart)
            (Payload.pdfDoc (export_pdf chart title))⟩

/-- A one-record sample dataset used by the concrete witnesses. -/
def sampleRecord : Record := ⟨⟨2024, 1, 1⟩, 10, 100⟩

/-- The sample dataset's frame, with the three standard columns. -/
def sampleFrame : Frame := ⟨["date", "orders", "revenue"], [sampleRecord]⟩

/-- The chart rendered from the sample frame. -/
def sampleChart : ChartArtifact := ⟨[(⟨2024, 1, 1⟩, 100)]⟩

/-- The report document rendered from the sample frame under default
configuration. -/
def sampleDoc : ReportDocument :=
  ⟨"Sales Report", 10, "$100.00", "2024-01-01", "$100.00",
    [("2024-01-01", 10, "$100.00")]⟩

/-- Inserting into any list never yields the empty list. -/
theorem orderedInsert_ne_nil (r : Record) (l : List Record) :
    List.orderedInsert revenueLE r l ≠ [] := by
  cases l with
  | nil => simp [List.orderedInsert]
  | cons x xs =>
    simp only [List.orderedInsert]
    split <;> simp

/-- The last element after an ordered insert: the inserted element lands
last exactly when it is strictly above every element of the list. -/
theorem getLast?_orderedInsert (r : Record) (l : List Record) :
    (List.orderedInsert revenueLE r l).getLast? =
      if ∀ x ∈ l, ¬ revenueLE r x then some r else l.getLast? := by
  induction l with
  | nil => simp
  | cons x xs ih =>
    simp only [List.orderedInsert]
    by_cases hrx : revenueLE r x
    · rw [if_pos hrx, List.getLast?_cons_cons, if_neg]
      push_neg
      exact ⟨x, List.mem_cons_self x xs, hrx⟩
    · rw [if_neg hrx]
      by_cases hall : ∀ z ∈ xs, ¬ revenueLE r z
      · have hc : ∀ z ∈ x :: xs, ¬ revenueLE r z := by
          intro z hz
          rcases List.mem_cons.1 hz with rfl | h2
          · exact hrx
          · exact hall z h2
        rw [if_pos hc]
        cases h : List.orderedInsert revenueLE r xs with
        | nil => exact absurd h (orderedInsert_ne_nil r xs)
        | cons y ys =>
          rw [List.getLast?_cons_cons, ← h, ih, if_pos hall]
      · rw [if_neg (fun hc => hall (List.forall_mem_cons.mp hc).2)]
        have hxs : xs ≠ [] := by
          rintro rfl
          exact hall (by simp)
        cases xs with
        | nil => exact absurd rfl hxs
        | cons z zs =>
          rw [List.getLast?_cons_cons]
          cases h : List.orderedInsert revenueLE r (z :: zs) with
          | nil => exact absurd h (orderedInsert_ne_nil _ _)
          | cons y ys =>
            rw [List.getLast?_cons_cons, ← h, ih, if_neg hall]

/-- Unfolding of the last element of a stable ascending sort over a cons:
the head lands last exactly when its revenue is strictly above every
revenue of the tail. -/
theorem insertionSort_getLast?_cons (r : Record) (u : List Record) :
    (List.insertionSort revenueLE (r :: u)).getLast? =
      if ∀ x ∈ u, ¬ revenueLE r x then some r
      else (List.insertionSort revenueLE u).getLast? := by
  simp only [List.insertionSort]
  rw [getLast?_orderedInsert]
  simp only [List.mem_insertionSort]

/-- A non-empty list's stable ascending sort has a last element. -/
theorem insertionSort_getLast?_isSome (u : List Record) (h : u ≠ []) :
    ∃ b, (List.insertionSort revenueLE u).getLast? = some b := by
  induction u with
  | nil => exact absurd rfl h
  | cons r u ih =>
    rw [insertionSort_getLast?_cons]
    by_cases hc : ∀ x ∈ u, ¬ revenueLE r x
    · exact ⟨r, if_pos hc⟩
    · have hu : u ≠ [] := by
        rintro rfl
        exact hc (by simp)
      obtain ⟨b, hb⟩ := ih hu
      exact ⟨b, by rw [if_neg hc, hb]⟩

/-- The last element of the stable ascending sort is a maximal-revenue
element and, among equal maxima, the one occurring last in the input:
every strictly later element has strictly smaller revenue. -/
theorem insertionSort_getLast?_spec (u : List Record) (b : Record)
    (hb : (List.insertionSort revenueLE u).getLast? = some b) :
    ∃ i, ∃ hi : i < u.length,
      u.get ⟨i, hi⟩ = b ∧ (∀ x ∈ u, x.revenue ≤ b.revenue) ∧
      ∀ j, ∀ hj : j < u.length, i < j → (u.get ⟨j, hj⟩).revenue < b.revenue := by
  induction u with
  | nil => simp [List.insertionSort] at hb
  | cons r u ih =>
    rw [insertionSort_getLast?_cons] at hb
    split at hb
    case isTrue hcond =>
      cases hb
      refine ⟨0, Nat.succ_pos _, rfl, ?_, ?_⟩
      · intro x hx
        rcases List.mem_cons.1 hx with rfl | hx'
        · exact le_refl _
        · exact le_of_lt (not_le.mp (hcond x hx'))
      · intro j hj hj0
        cases j with
        | zero => exact absurd hj0 (lt_irrefl 0)
        | succ j' =>
          have hj' : j' < u.length := Nat.lt_of_succ_lt_succ hj
          exact not_le.mp (hcond _ (u.get_mem j' hj'))
    case isFalse hcond =>
      obtain ⟨i, hi, hget, hmax, hafter⟩ := ih hb
      push_neg at hcond
      obtain ⟨y, hy, hry⟩ := hcond
      refine ⟨i + 1, Nat.succ_lt_succ hi, hget, ?_, ?_⟩
      · intro x hx
        rcases List.mem_cons.1 hx with rfl | hx'
        · exact le_trans hry (hmax y hy)
        · exact hmax x hx'
      · intro j hj hij
        cases j with
        | zero => exact absurd hij (Nat.not_lt_zero _)
        | succ j' =>
          have hj' : j' < u.length := Nat.lt_of_succ_lt_succ hj
          exact hafter j' hj' (Nat.lt_of_succ_lt_succ hij)

/-- The pandas best-row selection is the last element of the stable
ascending sort of the REVERSED table (head of reverse = last). -/
theorem bestRow_eq_getLast? (t : List Record) :
    bestRow t = (List.insertionSort revenueLE t.reverse).getLast? := by
  unfold bestRow sortValuesRevenueDesc
  rw [List.head?_reverse]

/-- On a non-empty table the best-row selection yields a row. -/
theorem bestRow_isSome (t : List Record) (h : t ≠ []) : ∃ b, bestRow t = some b := by
  rw [bestRow_eq_getLast?]
  exact insertionSort_getLast?_isSome t.reverse (by simpa using h)

/-- The selected best row is a maximal-revenue record and, among equal
maxima, the one occurring FIRST in table order: all strictly earlier rows
have strictly smaller revenue. (Last occurrence in the reversed table is
first occurrence in the table.) -/
theorem bestRow_spec (t : List Record) (b : Record) (hb : bestRow t = some b) :
    ∃ i, ∃ hi : i < t.length,
      t.get ⟨i, hi⟩ = b ∧ (∀ x ∈ t, x.revenue ≤ b.revenue) ∧
      ∀ j, ∀ hj : j < t.length, j < i → (t.get ⟨j, hj⟩).revenue < b.revenue := by
  rw [bestRow_eq_getLast?] at hb
  obtain ⟨i, hi, hget, hmax, hafter⟩ := insertionSort_getLast?_spec t.reverse b hb
  have hlen : t.reverse.length = t.length := List.length_reverse t
  have hi' : i < t.length := hlen ▸ hi
  refine ⟨t.length - 1 - i, by omega, ?_, ?_, ?_⟩
  · have h1 := hget
    simp only [List.get_eq_getElem] at h1 ⊢
    rw [List.getElem_reverse] at h1
    exact h1
  · intro x hx
    exact hmax x (List.mem_reverse.mpr hx)
  · intro j hj hjlt
    have hjr : t.length - 1 - j < t.reverse.length := by
      rw [hlen]
      omega
    have hij : i < t.length - 1 - j := by omega
    have h2 := hafter (t.length - 1 - j) hjr hij
    simp only [List.get_eq_getElem] at h2 ⊢
    rw [List.getElem_reverse] at h2
    have hjj : t.length - 1 - (t.length - 1 - j) = j := by omega
    simp only [hjj] at h2
    exact h2

/-- Padding to two digits always yields a two-character string. -/
theorem pad2_length (n : Nat) (h : n < 100) : (pad2 n).length = 2 := by
  revert n
  with_unfolding_all decide

/-- The bundle assembled from the sample frame under default
configuration (PDF export enabled). -/
def sampleBundle : ArtifactBundle :=
  ⟨"Sales Report", sampleDoc,
    [("revenue_chart.png", .png sampleChart, "image/png"),
     ("report.pdf", .pdfDoc ⟨"Sales Report", sampleChart⟩, "application/pdf")]⟩

/-- C1: for every table on which the metrics step succeeds, the computed
`best_record` is a record of the table with maximal revenue and, among
records of equal maximal revenue, the one with the LOWER index (first
occurrence in table order): every strictly earlier record has strictly
smaller revenue. pandas' descending sort is stable (it reverses the data
before the stable ascending argsort and the indexer after), so tied
maxima keep their original order and `.iloc[0]` is the first one. -/
theorem best_record_first_occurrence (t : List Record) (m : Metrics)
    (hm : computeMetrics t = .ok m) :
    ∃ i, ∃ hi : i < t.length,
      t.get ⟨i, hi⟩ = m.best ∧ (∀ x ∈ t, x.revenue ≤ m.best.revenue) ∧
      ∀ j, ∀ hj : j < t.length, j < i → (t.get ⟨j, hj⟩).revenue < m.best.revenue := by
  have hb : bestRow t = some m.best := by
    unfold computeMetrics at hm
    cases h : bestRow t with
    | none => rw [h] at hm; cases hm
    | some b => rw [h] at hm; cases hm; rfl
  exact bestRow_spec t m.best hb

/-- C1 (witness): the theorem applied to the concrete two-record table
whose records share the maximal revenue 5; the best record is the one at
index 0. -/
theorem best_record_first_occurrence_witness :
    ∃ i, ∃ hi : i < ([⟨⟨2024, 1, 1⟩, 1, 5⟩, ⟨⟨2024, 1, 2⟩, 2, 5⟩] : List Record).length,
      ([⟨⟨2024, 1, 1⟩, 1, 5⟩, ⟨⟨2024, 1, 2⟩, 2, 5⟩] : List Record).get ⟨i, hi⟩
          = ⟨⟨2024, 1, 1⟩, 1, 5⟩
        ∧ (∀ x ∈ ([⟨⟨2024, 1, 1⟩, 1, 5⟩, ⟨⟨2024, 1, 2⟩, 2, 5⟩] : List Record),
            x.revenue ≤ (5 : ℚ))
        ∧ ∀ j, ∀ hj : j < ([⟨⟨2024, 1, 1⟩, 1, 5⟩, ⟨⟨2024, 1, 2⟩, 2, 5⟩] : List Record).length,
            j < i →
            (([⟨⟨2024, 1, 1⟩, 1, 5⟩, ⟨⟨2024, 1, 2⟩, 2, 5⟩] : List Record).get ⟨j, hj⟩).revenue
              < (5 : ℚ) :=
  best_record_first_occurrence _ ⟨3, 10, ⟨⟨2024, 1, 1⟩, 1, 5⟩⟩ (by with_unfolding_all rfl)

/-- C2: the autoescape decision jinja2's `select_autoescape()` defaults
make for the template name `report.html.j2` is `False` (its extension
`.j2` is in neither the enabled nor the disabled set), so a title
configured as `"A & B"` is interpolated raw into the rendered document —
it is NOT escaped to `"A &amp; B"`, which is what escaping (also shown)
would have produced. -/
theorem title_interpolated_unescaped :
    selectAutoescapeDefault templateName = false
    ∧ renderField (selectAutoescapeDefault templateName) "A & B" = "A & B"
    ∧ htmlEscape "A & B" = "A &amp; B"
    ∧ (render_html sampleFrame (some "A & B")).map ReportDocument.title = .ok "A & B" :=
  ⟨by with_unfolding_all rfl, by with_unfolding_all rfl,
   by with_unfolding_all rfl, by with_unfolding_all rfl⟩

/-- C3: on the zero-record table the metrics step fails with the
empty-dataset error and never returns a Metrics value. -/
theorem empty_table_metrics_error :
    computeMetrics [] = .error .emptyDataset ∧
      ∀ m : Metrics, computeMetrics [] ≠ .ok m := by
  refine ⟨rfl, fun m hc => ?_⟩
  exact Except.noConfusion hc

/-- C4 (counterexample): a dataset whose columns are only `date` and
`orders` (no `revenue`) loads successfully — `read_data` does not fail
with the data-load error, refuting the claim that DataSource rejects it. -/
theorem missing_revenue_loads_ok :
    read_data ⟨["date", "orders"], []⟩ = .ok ⟨["date", "orders"], []⟩
    ∧ read_data ⟨["date", "orders"], []⟩ ≠ .error .dataLoad := by
  refine ⟨by with_unfolding_all rfl, ?_⟩
  intro hc
  rw [show read_data ⟨["date", "orders"], []⟩ = .ok ⟨["date", "orders"], []⟩ from
    by with_unfolding_all rfl] at hc
  cases hc

/-- C4 (amended): a dataset file missing the `revenue` column (but having
the `date` column that `parse_dates` needs) is loaded successfully by the
data-loading step; the first failure of the pipeline is the missing-column
(`KeyError "revenue"`) failure in the chart-rendering stage, before
metrics, formatting or export run. -/
theorem missing_revenue_fails_at_chart_stage (f : Frame) (tEnv pEnv : Option String)
    (hd : "date" ∈ f.columns) (hr : "revenue" ∉ f.columns) :
    read_data f = .ok f
    ∧ make_chart f = .error (.keyError "revenue")
    ∧ build_and_send f tEnv pEnv = .error (.keyError "revenue") := by
  have h1 : read_data f = .ok f := by
    unfold read_data
    rw [if_pos hd]
  have h2 : make_chart f = .error (.keyError "revenue") := by
    unfold make_chart
    rw [if_neg (not_not_intro hd), if_pos hr]
  refine ⟨h1, h2, ?_⟩
  simp only [build_and_send, h1, h2]

/-- C4 (witness): the amended theorem applied to the concrete frame with
columns `date`, `orders` only. -/
theorem missing_revenue_fails_at_chart_stage_witness :
    read_data ⟨["date", "orders"], []⟩ = .ok ⟨["date", "orders"], []⟩
    ∧ make_chart ⟨["date", "orders"], []⟩ = .error (.keyError "revenue")
    ∧ build_and_send ⟨["date", "orders"], []⟩ none none = .error (.keyError "revenue") :=
  missing_revenue_fails_at_chart_stage _ none none (by with_unfolding_all decide)
    (by with_unfolding_all decide)

/-- C5: every successful pipeline run's attachment list is exactly the
chart attachment followed by the PDF attachment when PDF export is
enabled, and exactly the single chart attachment when it is disabled. -/
theorem attachments_exact_order (f : Frame) (tEnv pEnv : Option String)
    (b : ArtifactBundle) (h : build_and_send f tEnv pEnv = .ok b) :
    (enable_pdf pEnv = true →
      ∃ c d, b.attachments =
        [("revenue_chart.png", Payload.png c, "image/png"),
         ("report.pdf", Payload.pdfDoc d, "application/pdf")])
    ∧ (enable_pdf pEnv = false →
      ∃ c, b.attachments = [("revenue_chart.png", Payload.png c, "image/png")]) := by
  unfold build_and_send at h
  split at h
  · cases h
  · split at h
    · cases h
    · split at h
      · cases h
      · rename_i chart hchart s3 doc hdoc
        cases h
        constructor
        · intro hp
          refine ⟨chart, export_pdf chart (tEnv.getD "Sales Report"), ?_⟩
          show attachmentsList (enable_pdf pEnv) _ _ = _
          unfold attachmentsList
          rw [hp]
          simp
        · intro hp
          refine ⟨chart, ?_⟩
          show attachmentsList (enable_pdf pEnv) _ _ = _
          unfold attachmentsList
          rw [hp]
          simp

/-- C5 (witness): the theorem applied to the concrete sample run with PDF
export enabled by default. -/
theorem attachments_exact_order_witness :
    (enable_pdf none = true →
      ∃ c d, sampleBundle.attachments =
        [("revenue_chart.png", Payload.png c, "image/png"),
         ("report.pdf", Payload.pdfDoc d, "application/pdf")])
    ∧ (enable_pdf none = false →
      ∃ c, sampleBundle.attachments = [("revenue_chart.png", Payload.png c, "image/png")]) :=
  attachments_exact_order sampleFrame none none sampleBundle (by with_unfolding_all rfl)

/-- C6: on every non-empty table the metrics step succeeds, and its
`total_orders` is the sum of the `orders` column while `total_revenue` is
the sum of the `revenue` column. -/
theorem metrics_totals_are_sums (t : List Record) (h : t ≠ []) :
    ∃ m, computeMetrics t = .ok m ∧
      m.total_orders = (t.map Record.orders).sum ∧
      m.total_revenue = (t.map Record.revenue).sum := by
  obtain ⟨b, hb⟩ := bestRow_isSome t h
  exact ⟨⟨(t.map Record.orders).sum, (t.map Record.revenue).sum, b⟩,
    by unfold computeMetrics; rw [hb], rfl, rfl⟩

/-- C6 (witness): the theorem applied to the one-record sample table. -/
theorem metrics_totals_are_sums_witness :
    ∃ m, computeMetrics [sampleRecord] = .ok m ∧
      m.total_orders = (([sampleRecord] : List Record).map Record.orders).sum ∧
      m.total_revenue = (([sampleRecord] : List Record).map Record.revenue).sum :=
  metrics_totals_are_sums [sampleRecord] (List.cons_ne_nil _ _)

/-- C7: the currency format produces `"$1,234.50"` for the value 1234.5
and `"$0.00"` for 0, and for every value it is a leading dollar sign, an
integer part, a point and exactly two fraction digits. -/
theorem currency_format_spec :
    formatCurrency (1234.5 : ℚ) = "$1,234.50" ∧
    formatCurrency 0 = "$0.00" ∧
    ∀ v : ℚ, ∃ w f, formatCurrency v = "$" ++ w ++ "." ++ f ∧ f.length = 2 := by
  refine ⟨by with_unfolding_all rfl, by with_unfolding_all rfl, fun v => ?_⟩
  refine ⟨(if roundHalfEven (v * 100) < 0 then "-" else "")
      ++ commaGroup (toString ((roundHalfEven (v * 100)).natAbs / 100)),
    pad2 ((roundHalfEven (v * 100)).natAbs % 100), ?_, ?_⟩
  · show "$" ++ formatFixed2 v = _
    unfold formatFixed2
    simp only [String.append_assoc]
  · exact pad2_length _ (Nat.mod_lt _ (by norm_num))

/-- C8: the rendered row listing has one entry per record and the entry
at every index `i` is built from the record at the same index `i` of the
table (same order), carrying the formatted date, the orders count and the
currency-formatted revenue. -/
theorem report_rows_follow_table_order (t : List Record) (i : Nat) (hi : i < t.length) :
    (renderRows t).length = t.length ∧
    (renderRows t).get? i = some (formatDate (t.get ⟨i, hi⟩).date,
      (t.get ⟨i, hi⟩).orders, formatCurrency (t.get ⟨i, hi⟩).revenue) := by
  constructor
  · simp [renderRows]
  · unfold renderRows
    rw [List.get?_map, List.get?_eq_get hi]
    rfl

/-- C8 (witness): the theorem applied to the one-record sample table at
index 0. -/
theorem report_rows_follow_table_order_witness :
    (renderRows [sampleRecord]).length = ([sampleRecord] : List Record).length ∧
    (renderRows [sampleRecord]).get? 0 = some
      (formatDate (([sampleRecord] : List Record).get ⟨0, Nat.one_pos⟩).date,
       (([sampleRecord] : List Record).get ⟨0, Nat.one_pos⟩).orders,
       formatCurrency (([sampleRecord] : List Record).get ⟨0, Nat.one_pos⟩).revenue) :=
  report_rows_follow_table_order [sampleRecord] 0 Nat.one_pos

/-- C9 (counterexample): on the zero-record table (with all three columns
present) the chart renderer SUCCEEDS, producing an empty-plot artifact; it
does not fail with the render error, refuting the claim. -/
theorem empty_table_chart_succeeds :
    make_chart ⟨["date", "orders", "revenue"], []⟩ = .ok ⟨[]⟩
    ∧ make_chart ⟨["date", "orders", "revenue"], []⟩ ≠ .error .renderError := by
  refine ⟨by with_unfolding_all rfl, ?_⟩
  intro hc
  rw [show make_chart ⟨["date", "orders", "revenue"], []⟩ = .ok ⟨[]⟩ from
    by with_unfolding_all rfl] at hc
  cases hc

/-- C9 (amended): the chart renderer performs no emptiness validation:
for every frame having the `date` and `revenue` columns — the zero-record
table included — it succeeds and produces the plotted point series. -/
theorem make_chart_no_validation (f : Frame)
    (hd : "date" ∈ f.columns) (hr : "revenue" ∈ f.columns) :
    make_chart f = .ok ⟨f.records.map fun r => (r.date, r.revenue)⟩ := by
  unfold make_chart
  rw [if_neg (not_not_intro hd), if_neg (not_not_intro hr)]

/-- C9 (witness): the amended theorem applied to the concrete zero-record
frame. -/
theorem make_chart_no_validation_witness :
    make_chart ⟨["date", "orders", "revenue"], []⟩ = .ok ⟨[]⟩ :=
  make_chart_no_validation _ (by with_unfolding_all decide) (by with_unfolding_all decide)

/-- C10: PDF export defaults to enabled when the variable is unset, and is
enabled exactly when the lower-cased value is the string `"true"`; the
boolean-like values `"1"`, `"yes"` and `"True "` (trailing blank) disable
it, upper-case `"TRUE"` enables it, and with a disabling value the
pipeline's bundle holds only the chart attachment. -/
theorem enable_pdf_iff_lower_true :
    enable_pdf none = true
    ∧ (∀ s, enable_pdf (some s) = (s.toLower == "true"))
    ∧ enable_pdf (some "1") = false
    ∧ enable_pdf (some "yes") = false
    ∧ enable_pdf (some "True ") = false
    ∧ enable_pdf (some "TRUE") = true
    ∧ build_and_send sampleFrame none (some "yes")
        = .ok ⟨"Sales Report", sampleDoc,
            [("revenue_chart.png", .png sampleChart, "image/png")]⟩ :=
  ⟨by with_unfolding_all rfl, fun s => rfl, by with_unfolding_all rfl,
   by with_unfolding_all rfl, by with_unfolding_all rfl, by with_unfolding_all rfl,
   by with_unfolding_all rfl⟩

end EmailReport
